import Mathlib

/-!
Shallow embedding of `src/backend/src/index.ts` (Robbity/shaftify backend).

The backend keeps a JavaScript `Map<string, {access_token, refresh_token,
user, expires_at}>` called `sessionStore`, a periodic sweep that deletes
entries with `expires_at < Date.now()`, and three route handlers:
`GET /auth/spotify` (phase 1), `GET /auth/spotify/callback` (phase 2) and
`GET /auth/exchange` (phase 3).  The `Map` is modelled as an association
list with JS `Map` semantics: `set` overwrites the value in place when the
key is present and appends otherwise, `get` finds the first entry with the
key, `delete` removes every entry with the key.  Query parameters are
`Option String`; the JS truthiness test `!x` on a string parameter is
`none` or the empty string.  The two upstream axios calls of phase 2
(token exchange and profile fetch) are modelled as `Except Unit` inputs:
`.error` stands for a rejected promise or a non-2xx response (axios throws
on both, landing in the `catch` block).  Timestamps are `Nat`
milliseconds, as returned by `Date.now()`.
-/

namespace Shaftify

/-- The value type of `sessionStore`: `{access_token, refresh_token, user,
expires_at}`.  The `user : any` profile record is opaque to the backend and
modelled as a `String`. -/
structure SessionData where
  access_token : String
  refresh_token : String
  user : String
  expires_at : Nat
  deriving DecidableEq, Repr

/-- `sessionStore : Map<string, SessionData>`, as an association list. -/
abbrev Store := List (String × SessionData)

/-- `sessionStore.get(k)`: first entry with key `k`, if any. -/
def Store.get (s : Store) (k : String) : Option SessionData :=
  (s.find? (fun p => p.1 == k)).map (fun p => p.2)

/-- `sessionStore.delete(k)`: remove the entry with key `k`. -/
def Store.delete (s : Store) (k : String) : Store :=
  s.filter (fun p => p.1 != k)

/-- `sessionStore.set(k, v)`: JS `Map.set` overwrites the value in place
when the key is present, and appends a new entry otherwise. -/
def Store.set (s : Store) (k : String) (v : SessionData) : Store :=
  if s.any (fun p => p.1 == k) then
    s.map (fun p => if p.1 == k then (k, v) else p)
  else
    s ++ [(k, v)]

/-- The TTL used at insertion: `5 * 60 * 1000` milliseconds. -/
def ttlMillis : Nat := 5 * 60 * 1000

/-- The body of the `setInterval` sweep: iterate over the entries and
delete those with `data.expires_at < now` (strict comparison in the
source). -/
def sweep (s : Store) (now : Nat) : Store :=
  s.filter (fun p => ! decide (p.2.expires_at < now))

/-- The insertion performed at the end of a successful phase-2 callback:
`sessionStore.set(code, {access_token, refresh_token, user,
expires_at: Date.now() + 5 * 60 * 1000})`. -/
def put (s : Store) (code access_token refresh_token user : String)
    (now : Nat) : Store :=
  Store.set s code
    { access_token := access_token, refresh_token := refresh_token,
      user := user, expires_at := now + ttlMillis }

/-- Responses of the `GET /auth/exchange` handler. -/
inductive ExchangeResult where
  | badRequest : ExchangeResult
  | notFound : ExchangeResult
  | ok (access_token refresh_token user : String) : ExchangeResult
  deriving DecidableEq, Repr

/-- HTTP status of each exchange response: `res.status(400)`,
`res.status(404)`, and the implicit 200 of `res.json`. -/
def ExchangeResult.status : ExchangeResult → Nat
  | .badRequest => 400
  | .notFound => 404
  | .ok _ _ _ => 200

/-- The `success` field of the JSON body. -/
def ExchangeResult.success : ExchangeResult → Bool
  | .badRequest => false
  | .notFound => false
  | .ok _ _ _ => true

/-- The `error` field of the JSON body, when present. -/
def ExchangeResult.errorMsg : ExchangeResult → Option String
  | .badRequest => some "code parameter is required"
  | .notFound => some "Invalid or expired session code"
  | .ok _ _ _ => none

/-- The `GET /auth/exchange` handler.  `codeParam` is `req.query.code`;
`!sessionCode` is true when the parameter is absent or empty.  On a hit
the entry is deleted and the bundle returned; on a miss the store is left
untouched and a 404 is produced. -/
def exchange (s : Store) (codeParam : Option String) :
    Store × ExchangeResult :=
  match codeParam with
  | none => (s, .badRequest)
  | some c =>
    if c = "" then (s, .badRequest)
    else
      match Store.get s c with
      | none => (s, .notFound)
      | some d => (Store.delete s c, .ok d.access_token d.refresh_token d.user)

/-- Responses of the `GET /auth/spotify` handler. -/
inductive Phase1Result where
  | badRequest (error : String) : Phase1Result
  | redirect (url : String) : Phase1Result
  deriving DecidableEq, Repr

/-- HTTP status of each phase-1 response: `res.status(400)` for the
missing parameter, 302 for `res.redirect`. -/
def Phase1Result.status : Phase1Result → Nat
  | .badRequest _ => 400
  | .redirect _ => 302

/-- Whether the phase-1 response is a redirect. -/
def Phase1Result.isRedirect : Phase1Result → Bool
  | .badRequest _ => false
  | .redirect _ => true

/-- The `success` field of the phase-1 JSON body (only the 400 branch
sends JSON, with `success: false`). -/
def Phase1Result.success : Phase1Result → Bool
  | .badRequest _ => false
  | .redirect _ => false

/-- The fixed scope list, joined with spaces. -/
def spotifyScope : String := "user-read-private user-read-email user-top-read"

/-- The authorize URL built by phase 1, with the query keys in source
order (`response_type`, `client_id`, `scope`, `redirect_uri`, `state`).
The percent-encoding applied by `querystring.stringify` is elided: no
claim inspects the interior of this URL. -/
def authorizeUrl (clientId serverRedirect appRedirectUri : String) : String :=
  "https://accounts.spotify.com/authorize?response_type=code&client_id="
    ++ clientId ++ "&scope=" ++ spotifyScope ++ "&redirect_uri="
    ++ serverRedirect ++ "&state=" ++ appRedirectUri

/-- The `GET /auth/spotify` handler.  `redirectUriParam` is
`req.query.redirect_uri`; `!appRedirectUri` is true when absent or empty.
The handler never touches `sessionStore`, so the store is returned
unchanged on every path. -/
def authSpotify (store : Store) (clientId serverRedirect : String)
    (redirectUriParam : Option String) : Store × Phase1Result :=
  match redirectUriParam with
  | none => (store, .badRequest "redirect_uri parameter is required")
  | some r =>
    if r = "" then (store, .badRequest "redirect_uri parameter is required")
    else (store, .redirect (authorizeUrl clientId serverRedirect r))

/-- The fallback deep link used when `state` is falsy:
`exp://127.0.0.1:19000/--/`. -/
def defaultDeepLink : String := "exp://127.0.0.1:19000/--/"

/-- The redirect target recovered from `state`: the `state` value when it
is present and non-empty, the fixed default deep link otherwise
(`appRedirectUri ? ... : ...` in the source). -/
def stateTarget (stateParam : Option String) : String :=
  match stateParam with
  | none => defaultDeepLink
  | some t => if t = "" then defaultDeepLink else t

/-- The phase-2 handler always answers with a redirect. -/
inductive CallbackResult where
  | redirect (url : String) : CallbackResult
  deriving DecidableEq, Repr

/-- The `GET /auth/spotify/callback` handler.  `codeParam` is
`req.query.code`, `stateParam` is `req.query.state`.  `tokenResult`
models the axios POST to the token endpoint (`.ok` carries
`{access_token, refresh_token}`), `profileResult` the axios GET of the
profile (`.ok` carries the profile record); `.error` on either lands in
the `catch` block.  `freshCode` is the value returned by
`generateSessionCode()` (64 hex characters in the source) and `now` is
`Date.now()` at the insertion. -/
def callback (store : Store) (codeParam stateParam : Option String)
    (tokenResult : Except Unit (String × String))
    (profileResult : Except Unit String)
    (freshCode : String) (now : Nat) : Store × CallbackResult :=
  match codeParam with
  | none =>
    (store, .redirect (stateTarget stateParam ++ "?error=no_code"))
  | some c =>
    if c = "" then
      (store, .redirect (stateTarget stateParam ++ "?error=no_code"))
    else
      match tokenResult with
      | .error _ =>
        (store,
         .redirect (stateTarget stateParam ++ "?error=authentication_failed"))
      | .ok (access_token, refresh_token) =>
        match profileResult with
        | .error _ =>
          (store,
           .redirect (stateTarget stateParam ++ "?error=authentication_failed"))
        | .ok user =>
          (put store freshCode access_token refresh_token user now,
           .redirect (stateTarget stateParam ++ "?code=" ++ freshCode))

/-- The sequence of responses observed by `n` exchange requests for the
same code, executed in the order the single-threaded event loop serialises
them (the handler body is synchronous, hence atomic). -/
def takeResults (s : Store) (c : String) : Nat → List ExchangeResult
  | 0 => []
  | Nat.succ n =>
    let r := exchange s (some c)
    r.2 :: takeResults r.1 c n

/-! ### Store lemmas -/

theorem get_set (s : Store) (k : String) (v : SessionData) :
    Store.get (Store.set s k v) k = some v := by
  unfold Store.set
  split
  case isTrue h =>
    induction s with
    | nil => simp at h
    | cons hd tl ih =>
      by_cases hk : hd.1 == k
      · simp [Store.get, List.find?, hk]
      · simp only [List.any_cons, hk, Bool.false_or] at h
        simp only [List.map_cons, if_neg hk]
        simpa [Store.get, List.find?, hk] using ih h
  case isFalse h =>
    induction s with
    | nil => simp [Store.get, List.find?]
    | cons hd tl ih =>
      simp only [List.any_cons, Bool.or_eq_true, not_or] at h
      have h1 : (hd.1 == k) = false := by
        cases hb : hd.1 == k
        · rfl
        · exact absurd hb h.1
      simp only [List.cons_append]
      have := ih (by simp [h.2])
      simpa [Store.get, List.find?, h1] using this

theorem get_delete (s : Store) (k : String) :
    Store.get (Store.delete s k) k = none := by
  unfold Store.get Store.delete
  rw [Option.map_eq_none', List.find?_eq_none]
  intro p hp
  have := List.of_mem_filter hp
  simp only [bne_iff_ne, ne_eq, decide_eq_true_eq] at this
  simp [this]

theorem get_eq_none_of_all_ne (s : Store) (k : String)
    (h : ∀ p ∈ s, p.1 ≠ k) : Store.get s k = none := by
  unfold Store.get
  rw [Option.map_eq_none', List.find?_eq_none]
  intro p hp
  simp [h p hp]

theorem exchange_hit (s : Store) (c : String) (d : SessionData)
    (hc : c ≠ "") (h : Store.get s c = some d) :
    exchange s (some c) =
      (Store.delete s c,
       ExchangeResult.ok d.access_token d.refresh_token d.user) := by
  simp [exchange, hc, h]

theorem exchange_miss (s : Store) (c : String)
    (hc : c ≠ "") (h : Store.get s c = none) :
    exchange s (some c) = (s, ExchangeResult.notFound) := by
  simp [exchange, hc, h]

/-! ### Claim theorems -/

/-- Claim C1: after `put` stores a bundle under a fresh code, the first
exchange request with that code answers 200 with `success: true` and
exactly the stored `access_token`, `refresh_token` and `user`, and a
second exchange with the same code answers 404 not-found. -/
theorem take_put_roundtrip (s : Store) (code a r u : String) (now : Nat)
    (hcode : code ≠ "") (hfresh : Store.get s code = none) :
    ((exchange (put s code a r u now) (some code)).2 =
        ExchangeResult.ok a r u ∧
      ((exchange (put s code a r u now) (some code)).2).success = true) ∧
    ((exchange (exchange (put s code a r u now) (some code)).1
        (some code)).2 = ExchangeResult.notFound ∧
      ((exchange (exchange (put s code a r u now) (some code)).1
        (some code)).2).status = 404) := by
  have hget : Store.get (put s code a r u now) code =
      some { access_token := a, refresh_token := r, user := u,
             expires_at := now + ttlMillis } := get_set s code _
  have h1 := exchange_hit (put s code a r u now) code _ hcode hget
  have hdel : Store.get (exchange (put s code a r u now) (some code)).1
      code = none := by
    rw [h1]
    exact get_delete _ code
  have h2 : exchange (exchange (put s code a r u now) (some code)).1
      (some code) =
      ((exchange (put s code a r u now) (some code)).1,
        ExchangeResult.notFound) := exchange_miss _ code hcode hdel
  constructor
  · rw [h1]
    exact ⟨rfl, rfl⟩
  · rw [h2]
    exact ⟨rfl, rfl⟩

/-- Witness for C1 at a concrete bundle and the empty store. -/
theorem take_put_roundtrip_witness :
    ((exchange (put [] "c" "a" "r" "u" 0) (some "c")).2 =
        ExchangeResult.ok "a" "r" "u" ∧
      ((exchange (put [] "c" "a" "r" "u" 0) (some "c")).2).success = true) ∧
    ((exchange (exchange (put [] "c" "a" "r" "u" 0) (some "c")).1
        (some "c")).2 = ExchangeResult.notFound ∧
      ((exchange (exchange (put [] "c" "a" "r" "u" 0) (some "c")).1
        (some "c")).2).status = 404) :=
  take_put_roundtrip [] "c" "a" "r" "u" 0 (by decide) rfl

/-- Claim C6: a phase-1 request without a `redirect_uri` parameter gets a
400 JSON response `{success: false, error: "redirect_uri parameter is
required"}`, no redirect is emitted, and the session store is unchanged. -/
theorem phase1_missing_redirect_uri (store : Store)
    (clientId serverRedirect : String) :
    authSpotify store clientId serverRedirect none =
      (store,
       Phase1Result.badRequest "redirect_uri parameter is required") ∧
    ((authSpotify store clientId serverRedirect none).2).status = 400 ∧
    ((authSpotify store clientId serverRedirect none).2).success = false ∧
    ((authSpotify store clientId serverRedirect none).2).isRedirect
      = false := by
  exact ⟨rfl, rfl, rfl, rfl⟩

/-- Claim C8: an exchange request whose code is absent from the store
(in particular, any code never issued by `put`) gets the 404 response
with body `{success: false, error: "Invalid or expired session code"}`
and leaves the store untouched; a request with no code parameter instead
gets the distinct 400 missing-parameter response. -/
theorem unknown_code_not_found (s : Store) (c : String)
    (hc : c ≠ "") (habs : Store.get s c = none) :
    ((exchange s (some c)).2 = ExchangeResult.notFound ∧
      ((exchange s (some c)).2).status = 404 ∧
      ((exchange s (some c)).2).errorMsg =
        some "Invalid or expired session code" ∧
      (exchange s (some c)).1 = s) ∧
    ((exchange s none).2 = ExchangeResult.badRequest ∧
      ((exchange s none).2).status = 400) := by
  have h := exchange_miss s c hc habs
  exact ⟨⟨by rw [h], by rw [h]; rfl, by rw [h]; rfl, by rw [h]⟩, rfl, rfl⟩

/-- Witness for C8: a code absent from a concrete one-entry store. -/
theorem unknown_code_not_found_witness :
    ((exchange [("c", SessionData.mk "a" "r" "u" 7)] (some "z")).2 =
        ExchangeResult.notFound ∧
      ((exchange [("c", SessionData.mk "a" "r" "u" 7)] (some "z")).2).status
        = 404 ∧
      ((exchange [("c", SessionData.mk "a" "r" "u" 7)]
        (some "z")).2).errorMsg = some "Invalid or expired session code" ∧
      (exchange [("c", SessionData.mk "a" "r" "u" 7)] (some "z")).1 =
        [("c", SessionData.mk "a" "r" "u" 7)]) ∧
    ((exchange [("c", SessionData.mk "a" "r" "u" 7)] none).2 =
        ExchangeResult.badRequest ∧
      ((exchange [("c", SessionData.mk "a" "r" "u" 7)] none).2).status
        = 400) :=
  unknown_code_not_found [("c", SessionData.mk "a" "r" "u" 7)] "z"
    (by decide) (by decide)

/-- Claim C4: when the token exchange or the profile fetch fails, the
phase-2 callback redirects to `{target}?error=authentication_failed`
(with `target` the state-recovered application target) and the session
store is exactly unchanged: no entry is created. -/
theorem phase2_failure_atomic (store : Store) (c : String)
    (st : Option String) (tr : Except Unit (String × String))
    (pr : Except Unit String) (fresh : String) (now : Nat)
    (hc : c ≠ "")
    (hfail : tr = Except.error () ∨ pr = Except.error ()) :
    (callback store (some c) st tr pr fresh now).1 = store ∧
    (callback store (some c) st tr pr fresh now).2 =
      CallbackResult.redirect
        (stateTarget st ++ "?error=authentication_failed") := by
  rcases hfail with h | h
  · subst h
    simp [callback, hc]
  · subst h
    cases tr with
    | error e => simp [callback, hc]
    | ok p =>
      cases p with
      | mk a r => simp [callback, hc]

/-- Witness for C4: failed token exchange against the empty store with a
state-supplied target. -/
theorem phase2_failure_atomic_witness :
    (callback [] (some "authcode") (some "myapp://cb")
      (Except.error ()) (Except.ok "u") "f" 0).1 = ([] : Store) ∧
    (callback [] (some "authcode") (some "myapp://cb")
      (Except.error ()) (Except.ok "u") "f" 0).2 =
      CallbackResult.redirect
        (stateTarget (some "myapp://cb") ++ "?error=authentication_failed") :=
  phase2_failure_atomic [] "authcode" (some "myapp://cb")
    (Except.error ()) (Except.ok "u") "f" 0 (by decide) (Or.inl rfl)

/-- Claim C7: a phase-2 callback without a `code` parameter redirects to
`{state}?error=no_code` when `state` carries a non-empty target and to
`exp://127.0.0.1:19000/--/?error=no_code` when `state` is absent, leaves
the store unchanged, and its outcome is independent of the upstream call
results (the remote provider is never contacted). -/
theorem phase2_no_code (store : Store) (st : Option String)
    (tr : Except Unit (String × String)) (pr : Except Unit String)
    (fresh : String) (now : Nat) :
    (callback store none st tr pr fresh now).1 = store ∧
    (∀ t, st = some t → t ≠ "" →
      (callback store none st tr pr fresh now).2 =
        CallbackResult.redirect (t ++ "?error=no_code")) ∧
    (st = none →
      (callback store none st tr pr fresh now).2 =
        CallbackResult.redirect
          "exp://127.0.0.1:19000/--/?error=no_code") ∧
    (∀ tr' pr',
      callback store none st tr pr fresh now =
        callback store none st tr' pr' fresh now) := by
  refine ⟨rfl, ?_, ?_, fun tr' pr' => rfl⟩
  · intro t ht hne
    subst ht
    simp [callback, stateTarget, hne]
  · intro h
    subst h
    rfl

/-- Witness for C7: absent `code` with a concrete state target, and with
`state` absent. -/
theorem phase2_no_code_witness :
    (callback [] none (some "myapp://cb") (Except.ok ("x", "y"))
      (Except.ok "u") "f" 0).1 = ([] : Store) ∧
    (callback [] none (some "myapp://cb") (Except.ok ("x", "y"))
      (Except.ok "u") "f" 0).2 =
      CallbackResult.redirect ("myapp://cb" ++ "?error=no_code") ∧
    (callback [] none none (Except.ok ("x", "y"))
      (Except.ok "u") "f" 0).2 =
      CallbackResult.redirect "exp://127.0.0.1:19000/--/?error=no_code" :=
  ⟨(phase2_no_code [] (some "myapp://cb") (Except.ok ("x", "y"))
      (Except.ok "u") "f" 0).1,
   (phase2_no_code [] (some "myapp://cb") (Except.ok ("x", "y"))
      (Except.ok "u") "f" 0).2.1 "myapp://cb" rfl (by decide),
   (phase2_no_code [] none (Except.ok ("x", "y"))
      (Except.ok "u") "f" 0).2.2.1 rfl⟩

/-- Claim C10: the sweep removes only expired entries — every entry with
`expires_at` strictly greater than `now` is still in the store afterwards
with its code and bundle unchanged, and the sweep never adds entries. -/
theorem sweep_frame (s : Store) (now : Nat) :
    (∀ p ∈ s, now < p.2.expires_at → p ∈ sweep s now) ∧
    (∀ p ∈ sweep s now, p ∈ s) := by
  constructor
  · intro p hp hlt
    refine List.mem_filter.mpr ⟨hp, ?_⟩
    simp [Nat.not_lt.mpr (Nat.le_of_lt hlt)]
  · intro p hp
    exact List.mem_filter.mp hp |>.1

/-- Witness for C10: an unexpired entry survives a concrete sweep, and
the swept store only holds original entries. -/
theorem sweep_frame_witness :
    (("c", SessionData.mk "a" "r" "u" 10) ∈
      sweep [("c", SessionData.mk "a" "r" "u" 10)] 5) ∧
    (("c", SessionData.mk "a" "r" "u" 10) ∈
      ([("c", SessionData.mk "a" "r" "u" 10)] : Store)) :=
  ⟨(sweep_frame [("c", SessionData.mk "a" "r" "u" 10)] 5).1
      ("c", SessionData.mk "a" "r" "u" 10) (by simp) (by decide),
   (sweep_frame [("c", SessionData.mk "a" "r" "u" 10)] 5).2
      ("c", SessionData.mk "a" "r" "u" 10)
      ((sweep_frame [("c", SessionData.mk "a" "r" "u" 10)] 5).1
        ("c", SessionData.mk "a" "r" "u" 10) (by simp) (by decide))⟩

theorem takeResults_absent (c : String) (hc : c ≠ "") (n : Nat) :
    ∀ s : Store, Store.get s c = none →
      takeResults s c n = List.replicate n ExchangeResult.notFound := by
  induction n with
  | zero => intro s _; rfl
  | succ n ih =>
    intro s h
    have hm := exchange_miss s c hc h
    simp only [takeResults, hm, List.replicate]
    exact congrArg _ (ih s h)

/-- Claim C9: any serialisation of `n + 1` exchange requests for the same
stored code (each handler body is synchronous, hence atomic on the
single-threaded event loop) yields exactly one 200 success carrying the
bundle — the first — followed by 404 not-found for every other request:
credentials are never delivered twice. -/
theorem concurrent_take_exclusive (s : Store) (c : String)
    (d : SessionData) (n : Nat)
    (hc : c ≠ "") (hd : Store.get s c = some d) :
    takeResults s c (n + 1) =
      ExchangeResult.ok d.access_token d.refresh_token d.user ::
        List.replicate n ExchangeResult.notFound := by
  have hhit := exchange_hit s c d hc hd
  simp only [takeResults, hhit]
  exact congrArg _ (takeResults_absent c hc n _ (get_delete s c))

/-- Witness for C9: three simultaneous exchanges of one concrete code. -/
theorem concurrent_take_exclusive_witness :
    takeResults [("c", SessionData.mk "a" "r" "u" 9)] "c" 3 =
      [ExchangeResult.ok "a" "r" "u", ExchangeResult.notFound,
        ExchangeResult.notFound] :=
  concurrent_take_exclusive [("c", SessionData.mk "a" "r" "u" 9)] "c"
    (SessionData.mk "a" "r" "u" 9) 2 (by decide) rfl

/-- Counterexample to claim C2 as stated: the store holds a code whose
`expires_at` (5) is below the current time (10), yet the exchange
handler — which never reads the clock — answers 200 with the bundle, not
404: an expired but not-yet-swept code is still exchanged. -/
theorem exchange_ignores_expiry_counterexample :
    (5 : Nat) ≤ 10 ∧
    (exchange [("c", SessionData.mk "a" "r" "u" 5)] (some "c")).2 =
      ExchangeResult.ok "a" "r" "u" ∧
    ((exchange [("c", SessionData.mk "a" "r" "u" 5)] (some "c")).2).status
      = 200 ∧
    (exchange [("c", SessionData.mk "a" "r" "u" 5)] (some "c")).2 ≠
      ExchangeResult.notFound := by
  refine ⟨by decide, rfl, rfl, by decide⟩

/-- Amended C2: the exchange handler decides by presence alone — a code
still in the store is exchanged successfully whatever its `expires_at`
(even one at or below the current time), and only a code no longer in the
store (e.g. already removed by the sweep or by a prior exchange) gets the
404 not-found response. -/
theorem exchange_expiry_amended (s : Store) (c : String) (now : Nat)
    (hc : c ≠ "") :
    (∀ d : SessionData, Store.get s c = some d → d.expires_at ≤ now →
      (exchange s (some c)).2 =
        ExchangeResult.ok d.access_token d.refresh_token d.user) ∧
    (Store.get s c = none →
      (exchange s (some c)).2 = ExchangeResult.notFound) := by
  constructor
  · intro d hd _
    rw [exchange_hit s c d hc hd]
  · intro h
    rw [exchange_miss s c hc h]

/-- Witness for amended C2: a concrete expired-but-present code is
exchanged successfully at time 10. -/
theorem exchange_expiry_amended_witness :
    (exchange [("c", SessionData.mk "a" "r" "u" 5)] (some "c")).2 =
      ExchangeResult.ok "a" "r" "u" :=
  (exchange_expiry_amended [("c", SessionData.mk "a" "r" "u" 5)] "c" 10
    (by decide)).1 (SessionData.mk "a" "r" "u" 5) rfl (by decide)

/-- Counterexample to claim C3 as stated: an entry with
`expires_at = now` (boundary case `expires_at <= now`) is NOT removed by
the sweep — the source compares with strict `<` — and its code is still
exchangeable afterwards. -/
theorem sweep_boundary_counterexample :
    (10 : Nat) ≤ 10 ∧
    sweep [("c", SessionData.mk "a" "r" "u" 10)] 10 =
      [("c", SessionData.mk "a" "r" "u" 10)] ∧
    (exchange (sweep [("c", SessionData.mk "a" "r" "u" 10)] 10)
      (some "c")).2 = ExchangeResult.ok "a" "r" "u" := by
  refine ⟨by decide, by decide, rfl⟩

/-- Amended C3: `sweep now` removes exactly the entries with
`expires_at < now` (strict): every surviving entry has
`now ≤ expires_at`, and when every entry under a code `c` has
`expires_at < now`, a subsequent exchange of `c` returns 404 not-found
even though the code was never consumed. -/
theorem sweep_strict_amended (s : Store) (now : Nat) :
    (∀ p ∈ sweep s now, now ≤ p.2.expires_at) ∧
    (∀ c : String, c ≠ "" →
      (∀ p ∈ s, p.1 = c → p.2.expires_at < now) →
      Store.get (sweep s now) c = none ∧
      (exchange (sweep s now) (some c)).2 = ExchangeResult.notFound) := by
  constructor
  · intro p hp
    have := (List.mem_filter.mp hp).2
    simp only [Bool.not_eq_true', decide_eq_false_iff_not, Nat.not_lt]
      at this
    exact this
  · intro c hc hall
    have hnone : Store.get (sweep s now) c = none := by
      apply get_eq_none_of_all_ne
      intro p hp
      have hmem := (List.mem_filter.mp hp).1
      have hkeep := (List.mem_filter.mp hp).2
      intro hk
      have := hall p hmem hk
      simp [this] at hkeep
    exact ⟨hnone, by rw [exchange_miss _ c hc hnone]⟩

/-- Witness for amended C3: a concrete strictly expired entry is removed
by the sweep and its code then reports not-found. -/
theorem sweep_strict_amended_witness :
    Store.get (sweep [("c", SessionData.mk "a" "r" "u" 5)] 10) "c" =
      none ∧
    (exchange (sweep [("c", SessionData.mk "a" "r" "u" 5)] 10)
      (some "c")).2 = ExchangeResult.notFound :=
  (sweep_strict_amended [("c", SessionData.mk "a" "r" "u" 5)] 10).2 "c"
    (by decide) (by decide)

/-- Counterexample to claim C5 as stated: when the generated code
collides with an existing unconsumed entry, `sessionStore.set` silently
replaces that entry — after the colliding `put` the original bundle is
gone and the code maps to the new bundle. -/
theorem put_collision_counterexample :
    Store.get [("c", SessionData.mk "a1" "r1" "u1" 999)] "c" =
      some (SessionData.mk "a1" "r1" "u1" 999) ∧
    put [("c", SessionData.mk "a1" "r1" "u1" 999)] "c" "a2" "r2" "u2" 0 =
      [("c", SessionData.mk "a2" "r2" "u2" 300000)] ∧
    Store.get
      (put [("c", SessionData.mk "a1" "r1" "u1" 999)] "c" "a2" "r2" "u2"
        0) "c" ≠ some (SessionData.mk "a1" "r1" "u1" 999) := by
  refine ⟨rfl, by decide, by decide⟩

/-- Amended C5: a `put` whose code collides with an existing entry
silently overwrites it in place — the code thereafter maps to the new
bundle and the store size is unchanged; collision safety rests solely on
the 64-hex-character random code generator, not on any store-level
check. -/
theorem put_collision_amended (s : Store) (c a r u : String) (now : Nat)
    (h : s.any (fun p => p.1 == c) = true) :
    Store.get (put s c a r u now) c =
      some (SessionData.mk a r u (now + ttlMillis)) ∧
    (put s c a r u now).length = s.length := by
  refine ⟨get_set s c _, ?_⟩
  simp [put, Store.set, h]

/-- Witness for amended C5: concrete in-place overwrite. -/
theorem put_collision_amended_witness :
    Store.get
      (put [("c", SessionData.mk "a1" "r1" "u1" 999)] "c" "a2" "r2" "u2"
        0) "c" = some (SessionData.mk "a2" "r2" "u2" (0 + ttlMillis)) ∧
    (put [("c", SessionData.mk "a1" "r1" "u1" 999)] "c" "a2" "r2" "u2"
      0).length = 1 :=
  put_collision_amended [("c", SessionData.mk "a1" "r1" "u1" 999)] "c"
    "a2" "r2" "u2" 0 (by decide)

end Shaftify
